import Mathlib

/-!
Verification development for the scvi-tools fork sources:
* `src/scvi/external/schanvi/module/_schanvae.py` (class `SCHANVAE`)
* `src/scvi/inference/semi_supervised_trainer.py` (class `MnistTrainer`)
* `src/scvi/data/fields/_mudata.py` (`BaseMuDataWrapper`, `MuDataWrapper`)

Tensors are embedded entrywise over `ℚ`.  Neural-network collaborators
(encoders, decoders, classifiers) and the numerical primitives of the
tensor library (`torch.distributions` KL divergences and log densities)
are black-box tensor-in/tensor-out functions, carried as fields of the
model structure, following the repository specification which excludes
"numerical-library internals" and treats network blocks as "opaque
differentiable function collaborators".  The loss/classify/trainer
*composition logic* — which is what the specification describes — is
translated line by line from the Python source.
-/

/-- Arithmetic mean of a vector, `tensor.mean()`.  On a nonempty
vector this is the torch mean; division by zero yields `0` in `ℚ`. -/
def meanFin {n : ℕ} (v : Fin n → ℚ) : ℚ :=
  (∑ i, v i) / n

/-- State of a `SCHANVAE` module (`_schanvae.py`), restricted to what its
`loss` method reads.  `B` = batch size, `L` = `n_labels` (finest level),
`d` = `n_latent`, `T` = type of the `labelled_tensors` mini-batch.
`encoder_z2_z1`, `decoder_z1_z2` act row-wise on a latent row together
with a (one-hot encoded) label and return `(mean, var, sample)` resp.
`(mean, var)` rows.  `classifier_probs z1row` is row `z1row` of
`self.classifier(z1)[1]`, the finest-level head of the hierarchical
classifier.  `klNormalStd m v` is `kl(Normal(m, sqrt v), Normal(0, 1))`
for one coordinate; `klNormalLib m v m2 v2` is the library-size KL
coordinate; `logProbNormal m v x` is `Normal(m, sqrt v).log_prob(x)`;
`klCat p q` is `kl(Categorical(p), Categorical(q))` for one row.
`classification_loss lt` is `self.classification_loss(labelled_tensors)`
(a scalar produced by the hierarchical loss network). -/
structure SCHANVAE (B L d : ℕ) (T : Type) where
  n_version : ℕ
  use_observed_lib_size : Bool
  y_prior : Fin L → ℚ
  encoder_z2_z1 : (Fin d → ℚ) → Fin L → ((Fin d → ℚ) × (Fin d → ℚ) × (Fin d → ℚ))
  decoder_z1_z2 : (Fin d → ℚ) → Fin L → ((Fin d → ℚ) × (Fin d → ℚ))
  classifier_probs : (Fin d → ℚ) → Fin L → ℚ
  klNormalStd : ℚ → ℚ → ℚ
  klNormalLib : ℚ → ℚ → ℚ → ℚ → ℚ
  logProbNormal : ℚ → ℚ → ℚ → ℚ
  klCat : (Fin L → ℚ) → (Fin L → ℚ) → ℚ
  classification_loss : T → ℚ

/-- The tensors read by `SCHANVAE.loss` from `tensors`,
`inference_outputs` and `generative_ouputs`.  `reconst_loss` is the
output of `get_reconstruction_loss(x, px_rate, px_r, px_dropout)`
(inherited from the `VAE` base class, a black-box collaborator);
`lib_mean`/`lib_var` are the `_compute_local_library_params(batch_index)`
rows; `y` is the finest-level label column `y[:, -1]` (used only when
`feed_labels` is true). -/
structure LossInputs (B L d : ℕ) where
  reconst_loss : Fin B → ℚ
  qz1_m : Fin B → Fin d → ℚ
  qz1_v : Fin B → Fin d → ℚ
  z1 : Fin B → Fin d → ℚ
  ql_m : Fin B → ℚ
  ql_v : Fin B → ℚ
  lib_mean : Fin B → ℚ
  lib_var : Fin B → ℚ
  y : Fin B → Fin L

/-- Row `(z1row, c)` of `kl(Normal(qz2_m, sqrt qz2_v), Normal(0,1)).sum(dim=1)`
where `(qz2_m, qz2_v, _) = encoder_z2_z1(z1row, one_hot c)` (source lines 295,
303-308). -/
def kl_z2_at {B L d : ℕ} {T : Type} (M : SCHANVAE B L d T)
    (z1row : Fin d → ℚ) (c : Fin L) : ℚ :=
  ∑ j, M.klNormalStd ((M.encoder_z2_z1 z1row c).1 j) ((M.encoder_z2_z1 z1row c).2.1 j)

/-- Row `(z1row, c)` of
`-Normal(pz1_m, sqrt pz1_v).log_prob(z1s).sum(dim=-1)` where
`(pz1_m, pz1_v) = decoder_z1_z2(z2, one_hot c)` and `z2` is the sample
returned by `encoder_z2_z1` (source lines 295-296, 310). -/
def loss_z1_unweight_at {B L d : ℕ} {T : Type} (M : SCHANVAE B L d T)
    (z1row : Fin d → ℚ) (c : Fin L) : ℚ :=
  -(∑ j, M.logProbNormal ((M.decoder_z1_z2 (M.encoder_z2_z1 z1row c).2.2 c).1 j)
      ((M.decoder_z1_z2 (M.encoder_z2_z1 z1row c).2.2 c).2 j)
      (z1row j))

/-- Row `b` of `Normal(qz1_m, sqrt qz1_v).log_prob(z1).sum(dim=-1)`
(source line 313). -/
def loss_z1_weight_at {B L d : ℕ} {T : Type} (M : SCHANVAE B L d T)
    (I : LossInputs B L d) (b : Fin B) : ℚ :=
  ∑ j, M.logProbNormal (I.qz1_m b j) (I.qz1_v b j) (I.z1 b j)

/-- Row `b` of `kl_divergence_l` (source lines 315-328): the library-size
KL against the batch-conditioned prior, or the scalar `0.0` when
`use_observed_lib_size`. -/
def kl_divergence_l_at {B L d : ℕ} {T : Type} (M : SCHANVAE B L d T)
    (I : LossInputs B L d) (b : Fin B) : ℚ :=
  if M.use_observed_lib_size then 0
  else M.klNormalLib (I.ql_m b) (I.ql_v b) (I.lib_mean b) (I.lib_var b)

/-- Modelled from the spec: `broadcast_labels` (from `scvi.module._utils`,
not under `src/`) with `y = None` produces tensors of size
`n_labels * batch_size` enumerating every label for every cell, laid out
label-major so that the later `view(n_labels, -1)` reshape of source line
365 recovers a `(label, cell)` matrix.  `labelOf k` is the enumerated
label of flat row `k`. -/
def labelOf {L B : ℕ} (k : Fin (L * B)) : Fin L :=
  ⟨k.1 / B, by
    have hk := k.isLt
    have h2 : 0 < L * B := Nat.lt_of_le_of_lt (Nat.zero_le _) hk
    have hB : 0 < B := Nat.pos_of_ne_zero (fun hB0 => by
      rw [hB0, Nat.mul_zero] at h2; exact absurd h2 (Nat.lt_irrefl 0))
    exact (Nat.div_lt_iff_lt_mul hB).mpr hk⟩

/-- Modelled from the spec: the cell of flat broadcast row `k`
(see `labelOf`). -/
def cellOf {L B : ℕ} (k : Fin (L * B)) : Fin B :=
  ⟨k.1 % B, by
    have hk := k.isLt
    have h2 : 0 < L * B := Nat.lt_of_le_of_lt (Nat.zero_le _) hk
    have hB : 0 < B := Nat.pos_of_ne_zero (fun hB0 => by
      rw [hB0, Nat.mul_zero] at h2; exact absurd h2 (Nat.lt_irrefl 0))
    exact Nat.mod_lt _ hB⟩

/-- Flat broadcast row index holding cell `b` with enumerated label `c`:
the index arithmetic of `view(n_labels, -1).t()` (source lines 365, 368). -/
def flatIdx {L B : ℕ} (c : Fin L) (b : Fin B) : Fin (L * B) :=
  ⟨c.1 * B + b.1, by
    have hc := c.isLt
    have hb := b.isLt
    calc c.1 * B + b.1 < c.1 * B + B := by omega
      _ = (c.1 + 1) * B := by ring
      _ ≤ L * B := Nat.mul_le_mul_right B hc⟩

lemma labelOf_flatIdx {L B : ℕ} (c : Fin L) (b : Fin B) :
    labelOf (flatIdx c b) = c := by
  apply Fin.ext
  show (c.1 * B + b.1) / B = c.1
  rw [Nat.add_comm, Nat.add_mul_div_right _ _ b.pos, Nat.div_eq_of_lt b.isLt,
    Nat.zero_add]

lemma cellOf_flatIdx {L B : ℕ} (c : Fin L) (b : Fin B) :
    cellOf (flatIdx c b) = b := by
  apply Fin.ext
  show (c.1 * B + b.1) % B = b.1
  rw [Nat.add_comm, Nat.add_mul_mod_self_right, Nat.mod_eq_of_lt b.isLt]

/-- The flat `loss_z1_unweight` tensor of size `n_labels * batch_size`
computed on the broadcast rows (source lines 293-296, 310). -/
def flat_loss_z1_unweight {B L d : ℕ} {T : Type} (M : SCHANVAE B L d T)
    (I : LossInputs B L d) : Fin (L * B) → ℚ :=
  fun k => loss_z1_unweight_at M (I.z1 (cellOf k)) (labelOf k)

/-- The flat `kl_divergence_z2` tensor of size `n_labels * batch_size`
computed on the broadcast rows (source lines 293-295, 306-308). -/
def flat_kl_divergence_z2 {B L d : ℕ} {T : Type} (M : SCHANVAE B L d T)
    (I : LossInputs B L d) : Fin (L * B) → ℚ :=
  fun k => kl_z2_at M (I.z1 (cellOf k)) (labelOf k)

/-- Source lines 361-386, the ELBO when the label is not observed:
`probs = classifier(z1)[1]`;
`reconst_loss += loss_z1_weight + (loss_z1_unweight.view(L,-1).t() * probs).sum(1)`;
`kl_divergence = (kl_divergence_z2.view(L,-1).t() * probs).sum(1)
  + kl(Cat(probs), Cat(y_prior.repeat(B,1))) + kl_divergence_l`;
`loss = torch.mean(reconst_loss + kl_divergence * kl_weight)`. -/
def marginalLoss {B L d : ℕ} {T : Type} (M : SCHANVAE B L d T)
    (I : LossInputs B L d) (kl_weight : ℚ) : ℚ :=
  meanFin (fun b =>
    (I.reconst_loss b + loss_z1_weight_at M I b
        + ∑ c, flat_loss_z1_unweight M I (flatIdx c b) * M.classifier_probs (I.z1 b) c)
      + ((∑ c, flat_kl_divergence_z2 M I (flatIdx c b) * M.classifier_probs (I.z1 b) c)
          + M.klCat (M.classifier_probs (I.z1 b)) M.y_prior
          + kl_divergence_l_at M I b) * kl_weight)

/-- `loss_z1_unweight.mean()`: over the batch-sized tensor when labels
were fed (`broadcast_labels` with observed `y` keeps `batch_size` rows,
pairing each cell with its own label), over the flat broadcast tensor
otherwise. -/
def loss_z1_unweight_mean {B L d : ℕ} {T : Type} (M : SCHANVAE B L d T)
    (I : LossInputs B L d) (feed_labels : Bool) : ℚ :=
  if feed_labels then meanFin (fun b => loss_z1_unweight_at M (I.z1 b) (I.y b))
  else meanFin (flat_loss_z1_unweight M I)

/-- `kl_divergence_z2.mean()`, see `loss_z1_unweight_mean`. -/
def kl_divergence_z2_mean {B L d : ℕ} {T : Type} (M : SCHANVAE B L d T)
    (I : LossInputs B L d) (feed_labels : Bool) : ℚ :=
  if feed_labels then meanFin (fun b => kl_z2_at M (I.z1 b) (I.y b))
  else meanFin (flat_kl_divergence_z2 M I)

/-- Source lines 331-348, the `n_version == 1` labelled branch:
`loss = reconst_loss.mean() + loss_z1_weight.mean() + loss_z1_unweight.mean()
  + kl_weight * (kl_divergence_z2.mean() + kl_divergence_l.mean())`;
`loss += classifier_loss * classification_ratio`
(the weight argument is named `classCoef` here). -/
def labelledV1Loss {B L d : ℕ} {T : Type} (M : SCHANVAE B L d T)
    (I : LossInputs B L d) (feed_labels : Bool) (kl_weight classCoef : ℚ)
    (lt : T) : ℚ :=
  meanFin I.reconst_loss + meanFin (loss_z1_weight_at M I)
    + loss_z1_unweight_mean M I feed_labels
    + kl_weight * (kl_divergence_z2_mean M I feed_labels
        + meanFin (kl_divergence_l_at M I))
    + M.classification_loss lt * classCoef

/-- Source lines 260-413, `SCHANVAE.loss`, returning the scalar `loss`
recorded first in the `LossRecorder` (the recorder's other entries are
per-term diagnostics of the same quantities).  Control flow of the
source: the `n_version == 1` labelled branch returns early; otherwise the
marginal section runs, and with `labelled_tensors` and `n_version == 0`
the classification term is added.  When `feed_labels` is true and
execution reaches the marginal section, source line 365 applies
`view(n_labels, -1)` to batch-sized tensors — a runtime shape error
whenever `n_labels` does not divide the batch size (and index-scrambled
otherwise); that unreachable-in-training corner is modelled as an error. -/
def SCHANVAE.loss {B L d : ℕ} {T : Type} (M : SCHANVAE B L d T)
    (I : LossInputs B L d) (feed_labels : Bool) (kl_weight : ℚ)
    (labelled_tensors : Option T) (classCoef : ℚ) : Except String ℚ :=
  match labelled_tensors with
  | some lt =>
      if M.n_version = 1 then
        Except.ok (labelledV1Loss M I feed_labels kl_weight classCoef lt)
      else if feed_labels then Except.error "view(n_labels, -1): shape mismatch"
      else if M.n_version = 0 then
        Except.ok (marginalLoss M I kl_weight + M.classification_loss lt * classCoef)
      else Except.ok (marginalLoss M I kl_weight)
  | none =>
      if feed_labels then Except.error "view(n_labels, -1): shape mismatch"
      else Except.ok (marginalLoss M I kl_weight)

/-- Source lines 160-165: `self.y_prior = y_prior if y_prior is not None
else (1 / self.n_labels) * torch.ones(1, self.n_labels)`. -/
def defaultYPrior (L : ℕ) (p : Option (Fin L → ℚ)) : Fin L → ℚ :=
  match p with
  | some q => q
  | none => fun _ => 1 / (L : ℚ)

/-- C1: on an unlabelled batch (`feed_labels = False`,
`labelled_tensors = None`), `SCHANVAE.loss` marginalizes over all
`n_labels` label values via the broadcast expansion (every per-cell term
is a sum over all `c : Fin L` of the broadcast-row value at `flatIdx c b`),
weighting the per-label `loss_z1_unweight` and `kl_divergence_z2` terms by
the classifier-predicted probabilities, and adds
`kl(Categorical(probs), Categorical(y_prior))`; and `y_prior` defaults to
the uniform distribution `1 / n_labels` when not supplied. -/
theorem C1_unlabelled_marginalizes {B L d : ℕ} {T : Type}
    (M : SCHANVAE B L d T) (I : LossInputs B L d) (kl_weight classCoef : ℚ) :
    SCHANVAE.loss M I false kl_weight none classCoef =
      Except.ok (meanFin (fun b =>
        (I.reconst_loss b + loss_z1_weight_at M I b
            + ∑ c, M.classifier_probs (I.z1 b) c * loss_z1_unweight_at M (I.z1 b) c)
          + ((∑ c, M.classifier_probs (I.z1 b) c * kl_z2_at M (I.z1 b) c)
              + M.klCat (M.classifier_probs (I.z1 b)) M.y_prior
              + kl_divergence_l_at M I b) * kl_weight))
    ∧ defaultYPrior L none = fun _ => 1 / (L : ℚ) := by
  refine ⟨?_, rfl⟩
  show Except.ok (marginalLoss M I kl_weight) = _
  congr 1
  unfold marginalLoss
  congr 1
  funext b
  simp only [flat_loss_z1_unweight, flat_kl_divergence_z2, labelOf_flatIdx,
    cellOf_flatIdx]
  simp only [mul_comm]

/-- C2: with `labelled_tensors` supplied, the returned loss decomposes
into the reconstruction term, the `q(z2|z1,y)` KL, the library-size KL
(the `kl_divergence_l_at` rows, which vanish under
`use_observed_lib_size`), plus `classification_loss * classification_ratio`:
under `n_version = 1` as the sum of the per-term means, under
`n_version = 0` as the classification term added to the marginal total. -/
theorem C2_labelled_loss_composition {B L d : ℕ} {T : Type}
    (M : SCHANVAE B L d T) (I : LossInputs B L d) (feed_labels : Bool)
    (kl_weight classCoef : ℚ) (lt : T) :
    (M.n_version = 1 →
      SCHANVAE.loss M I feed_labels kl_weight (some lt) classCoef =
        Except.ok (meanFin I.reconst_loss + meanFin (loss_z1_weight_at M I)
          + loss_z1_unweight_mean M I feed_labels
          + kl_weight * (kl_divergence_z2_mean M I feed_labels
              + meanFin (kl_divergence_l_at M I))
          + M.classification_loss lt * classCoef))
    ∧ (M.n_version = 0 →
      SCHANVAE.loss M I false kl_weight (some lt) classCoef =
        Except.ok (marginalLoss M I kl_weight
          + M.classification_loss lt * classCoef))
    ∧ (M.use_observed_lib_size = true → ∀ b, kl_divergence_l_at M I b = 0) := by
  refine ⟨fun h1 => ?_, fun h0 => ?_, fun hobs b => ?_⟩
  · simp [SCHANVAE.loss, h1, labelledV1Loss]
  · simp [SCHANVAE.loss, h0]
  · simp [kl_divergence_l_at, hobs]

/-- Concrete `SCHANVAE` instance used by the C2 witness (`B = 1`,
`n_labels = 2`, `n_latent = 1`, `n_version = 1`). -/
def modelC2 : SCHANVAE 1 2 1 Unit where
  n_version := 1
  use_observed_lib_size := true
  y_prior := fun _ => 1 / 2
  encoder_z2_z1 := fun z c => (fun _ => z 0 + c.1, fun _ => 1, fun _ => z 0)
  decoder_z1_z2 := fun z c => (fun _ => z 0 * 2, fun _ => 1 + c.1)
  classifier_probs := fun _ c => if c.1 = 0 then 3 / 4 else 1 / 4
  klNormalStd := fun m v => m * m + v
  klNormalLib := fun a b a2 b2 => a + b + a2 + b2
  logProbNormal := fun m v x => m + v * x
  klCat := fun p q => p 0 - q 0
  classification_loss := fun _ => 3

/-- Concrete loss inputs used by the C2 witness. -/
def inputsC2 : LossInputs 1 2 1 where
  reconst_loss := fun _ => 5
  qz1_m := fun _ _ => 1
  qz1_v := fun _ _ => 2
  z1 := fun _ _ => 3
  ql_m := fun _ => 1
  ql_v := fun _ => 1
  lib_mean := fun _ => 0
  lib_var := fun _ => 1
  y := fun _ => 0

/-- Witness for C2 at a concrete labelled batch. -/
theorem C2_labelled_loss_composition_witness :
    modelC2.n_version = 1 ∧ modelC2.use_observed_lib_size = true
    ∧ SCHANVAE.loss modelC2 inputsC2 true 1 (some ()) 2 =
        Except.ok (meanFin inputsC2.reconst_loss
          + meanFin (loss_z1_weight_at modelC2 inputsC2)
          + loss_z1_unweight_mean modelC2 inputsC2 true
          + 1 * (kl_divergence_z2_mean modelC2 inputsC2 true
              + meanFin (kl_divergence_l_at modelC2 inputsC2))
          + SCHANVAE.classification_loss modelC2 () * 2)
    ∧ kl_divergence_l_at modelC2 inputsC2 0 = 0 :=
  ⟨rfl, rfl,
    (C2_labelled_loss_composition modelC2 inputsC2 true 1 2 ()).1 rfl,
    (C2_labelled_loss_composition modelC2 inputsC2 true 1 2 ()).2.2 rfl 0⟩

/-- Concrete model for C3, `n_version = 1` configuration. -/
def modelC3v1 : SCHANVAE 1 2 1 Unit where
  n_version := 1
  use_observed_lib_size := false
  y_prior := fun _ => 1 / 2
  encoder_z2_z1 := fun _ _ => (fun _ => 0, fun _ => 0, fun _ => 0)
  decoder_z1_z2 := fun _ _ => (fun _ => 0, fun _ => 0)
  classifier_probs := fun _ c => if c.1 = 0 then 3 / 4 else 1 / 4
  klNormalStd := fun _ _ => 4
  klNormalLib := fun _ _ _ _ => 11
  logProbNormal := fun _ _ _ => 1
  klCat := fun _ _ => 7
  classification_loss := fun _ => 13

/-- The same model with `n_version = 0` selected instead. -/
def modelC3v0 : SCHANVAE 1 2 1 Unit :=
  { modelC3v1 with n_version := 0 }

/-- Concrete loss inputs for C3. -/
def inputsC3 : LossInputs 1 2 1 where
  reconst_loss := fun _ => 2
  qz1_m := fun _ _ => 1
  qz1_v := fun _ _ => 1
  z1 := fun _ _ => 1
  ql_m := fun _ => 0
  ql_v := fun _ => 0
  lib_mean := fun _ => 0
  lib_var := fun _ => 0
  y := fun _ => 0

/-- C3: the two numbered configurations of the labelled loss are both
selectable — `n_version = 1` returns the combination of per-term means
(`labelledV1Loss`), `n_version = 0` returns `torch.mean` of the raw
probability-weighted per-cell total (`marginalLoss`) plus the same
classification term — and they are not the same function: on a concrete
batch the two selections disagree. -/
theorem C3_two_versions_distinct :
    (∀ (B L d : ℕ) (T : Type) (M : SCHANVAE B L d T) (I : LossInputs B L d)
      (feed_labels : Bool) (kl_weight classCoef : ℚ) (lt : T),
      M.n_version = 1 →
        SCHANVAE.loss M I feed_labels kl_weight (some lt) classCoef =
          Except.ok (labelledV1Loss M I feed_labels kl_weight classCoef lt))
    ∧ (∀ (B L d : ℕ) (T : Type) (M : SCHANVAE B L d T) (I : LossInputs B L d)
      (kl_weight classCoef : ℚ) (lt : T),
      M.n_version = 0 →
        SCHANVAE.loss M I false kl_weight (some lt) classCoef =
          Except.ok (marginalLoss M I kl_weight
            + M.classification_loss lt * classCoef))
    ∧ SCHANVAE.loss modelC3v1 inputsC3 false 1 (some ()) 1 ≠
        SCHANVAE.loss modelC3v0 inputsC3 false 1 (some ()) 1 := by
  refine ⟨fun B L d T M I fl kw cc lt h1 => by simp [SCHANVAE.loss, h1],
    fun B L d T M I kw cc lt h0 => by simp [SCHANVAE.loss, h0], ?_⟩
  simp only [SCHANVAE.loss, modelC3v0, modelC3v1]
  norm_num [labelledV1Loss, marginalLoss, meanFin, loss_z1_unweight_mean,
    kl_divergence_z2_mean, flat_loss_z1_unweight, flat_kl_divergence_z2,
    loss_z1_unweight_at, loss_z1_weight_at, kl_z2_at, kl_divergence_l_at,
    inputsC3, Fin.sum_univ_two, Fin.sum_univ_one, Finset.sum_const,
    Finset.card_univ, Fintype.card_fin]

/-- Witness for the hypothesis-bearing parts of C3 at concrete inputs. -/
theorem C3_two_versions_distinct_witness :
    SCHANVAE.loss modelC3v1 inputsC3 false 1 (some ()) 1 =
      Except.ok (labelledV1Loss modelC3v1 inputsC3 false 1 1 ())
    ∧ SCHANVAE.loss modelC3v0 inputsC3 false 1 (some ()) 1 =
      Except.ok (marginalLoss modelC3v0 inputsC3 1
        + SCHANVAE.classification_loss modelC3v0 () * 1) :=
  ⟨C3_two_versions_distinct.1 1 2 1 Unit modelC3v1 inputsC3 false 1 1 () rfl,
    C3_two_versions_distinct.2.1 1 2 1 Unit modelC3v0 inputsC3 1 1 () rfl⟩

lemma meanFin_add {n : ℕ} (f g : Fin n → ℚ) :
    meanFin (fun i => f i + g i) = meanFin f + meanFin g := by
  unfold meanFin
  rw [Finset.sum_add_distrib, add_div]

lemma meanFin_mul_right {n : ℕ} (f : Fin n → ℚ) (k : ℚ) :
    meanFin (fun i => f i * k) = meanFin f * k := by
  unfold meanFin
  rw [← Finset.sum_mul, mul_div_right_comm]

/-- C4 (amended): when the classifier probability mass collapses onto the
true finest-level label of each cell, the marginalized (unlabelled) loss
equals the labelled (`n_version = 1`) loss for the same batch *minus the
classification term and plus `kl_weight` times the mean categorical KL of
the collapsed posterior against the label prior* — not the labelled loss
itself. -/
theorem C4_collapse_amended {B L d : ℕ} {T : Type}
    (M : SCHANVAE B L d T) (I : LossInputs B L d) (kl_weight classCoef : ℚ)
    (lt : T) (h1 : M.n_version = 1)
    (hcol : ∀ b, M.classifier_probs (I.z1 b) =
      fun c => if c = I.y b then 1 else 0) :
    SCHANVAE.loss M I true kl_weight (some lt) classCoef =
      Except.ok (labelledV1Loss M I true kl_weight classCoef lt)
    ∧ SCHANVAE.loss M I false kl_weight none classCoef =
      Except.ok ((labelledV1Loss M I true kl_weight classCoef lt
          - M.classification_loss lt * classCoef)
        + meanFin (fun b =>
            M.klCat (fun c => if c = I.y b then 1 else 0) M.y_prior)
          * kl_weight) := by
  constructor
  · simp [SCHANVAE.loss, h1]
  · show Except.ok (marginalLoss M I kl_weight) = _
    congr 1
    have hm : marginalLoss M I kl_weight = meanFin (fun b =>
        I.reconst_loss b + (loss_z1_weight_at M I b
          + (loss_z1_unweight_at M (I.z1 b) (I.y b)
            + (kl_z2_at M (I.z1 b) (I.y b) * kl_weight
              + ((M.klCat (fun c => if c = I.y b then 1 else 0) M.y_prior)
                  * kl_weight
                + kl_divergence_l_at M I b * kl_weight))))) := by
      unfold marginalLoss
      congr 1
      funext b
      rw [hcol b]
      simp only [flat_loss_z1_unweight, flat_kl_divergence_z2,
        labelOf_flatIdx, cellOf_flatIdx, mul_ite, mul_one, mul_zero,
        Finset.sum_ite_eq', Finset.mem_univ, if_true]
      ring
    rw [hm]
    simp only [meanFin_add, meanFin_mul_right]
    simp only [labelledV1Loss, loss_z1_unweight_mean, kl_divergence_z2_mean,
      if_true]
    ring

/-- Concrete model for the C4 counterexample: collapsed classifier
probabilities, all network terms zero, so the two losses differ exactly
by the categorical KL of the collapsed posterior against the uniform
prior. -/
def modelC4 : SCHANVAE 1 2 1 Unit where
  n_version := 1
  use_observed_lib_size := true
  y_prior := fun _ => 1 / 2
  encoder_z2_z1 := fun _ _ => (fun _ => 0, fun _ => 0, fun _ => 0)
  decoder_z1_z2 := fun _ _ => (fun _ => 0, fun _ => 0)
  classifier_probs := fun _ c => if c = 0 then 1 else 0
  klNormalStd := fun _ _ => 0
  klNormalLib := fun _ _ _ _ => 0
  logProbNormal := fun _ _ _ => 0
  klCat := fun p q => p 0 * (p 0 - q 0) + p 1 * (p 1 - q 1)
  classification_loss := fun _ => 0

/-- Concrete loss inputs for the C4 counterexample. -/
def inputsC4 : LossInputs 1 2 1 where
  reconst_loss := fun _ => 0
  qz1_m := fun _ _ => 0
  qz1_v := fun _ _ => 0
  z1 := fun _ _ => 0
  ql_m := fun _ => 0
  ql_v := fun _ => 0
  lib_mean := fun _ => 0
  lib_var := fun _ => 0
  y := fun _ => 0

/-- C4 counterexample: the classifier places all mass on the true label
of the single cell, yet the marginalized loss differs from the labelled
loss of the same batch (by the categorical KL against the uniform prior,
here `1/2` with the chosen black-box divergence). -/
theorem C4_counterexample :
    modelC4.classifier_probs (inputsC4.z1 0) 0 = 1
    ∧ modelC4.classifier_probs (inputsC4.z1 0) 1 = 0
    ∧ inputsC4.y 0 = 0
    ∧ SCHANVAE.loss modelC4 inputsC4 false 1 none 0 ≠
        SCHANVAE.loss modelC4 inputsC4 true 1 (some ()) 0 := by
  refine ⟨rfl, rfl, rfl, ?_⟩
  simp only [SCHANVAE.loss, modelC4]
  norm_num [marginalLoss, labelledV1Loss, meanFin, loss_z1_unweight_mean,
    kl_divergence_z2_mean, flat_loss_z1_unweight, flat_kl_divergence_z2,
    loss_z1_unweight_at, loss_z1_weight_at, kl_z2_at, kl_divergence_l_at,
    inputsC4, Fin.sum_univ_two, Fin.sum_univ_one, Finset.sum_const,
    Finset.card_univ, Fintype.card_fin]

/-- Witness for the amended C4 at the concrete collapsed instance. -/
theorem C4_collapse_amended_witness :
    SCHANVAE.loss modelC4 inputsC4 true 1 (some ()) 0 =
      Except.ok (labelledV1Loss modelC4 inputsC4 true 1 0 ())
    ∧ SCHANVAE.loss modelC4 inputsC4 false 1 none 0 =
      Except.ok ((labelledV1Loss modelC4 inputsC4 true 1 0 ()
          - modelC4.classification_loss () * 0)
        + meanFin (fun b =>
            modelC4.klCat (fun c => if c = inputsC4.y b then 1 else 0)
              modelC4.y_prior) * 1) :=
  C4_collapse_amended modelC4 inputsC4 1 0 () rfl
    (fun b => funext fun c => by fin_cases b; fin_cases c <;> rfl)

/-- `np.unique` on a list of naturals: the distinct values in ascending
order, realized as the ascending scan of the value range filtered by
membership. -/
def npUnique (l : List ℕ) : List ℕ :=
  (List.range (l.foldr max 0 + 1)).filter (fun v => decide (v ∈ l))

lemma le_foldr_max {l : List ℕ} {v : ℕ} (hv : v ∈ l) : v ≤ l.foldr max 0 := by
  induction l with
  | nil => cases hv
  | cons a t ih =>
      rcases List.mem_cons.mp hv with rfl | ht
      · exact le_max_left _ _
      · exact le_trans (ih ht) (le_max_right _ _)

lemma mem_npUnique {l : List ℕ} {v : ℕ} : v ∈ npUnique l ↔ v ∈ l := by
  unfold npUnique
  simp only [List.mem_filter, List.mem_range, decide_eq_true_eq]
  exact ⟨fun h => h.2, fun hv => ⟨Nat.lt_succ_of_le (le_foldr_max hv), hv⟩⟩

/-- Source `_schanvae.py` lines 166-192: the `labels_groups` validation in
`SCHANVAE.__init__` and the `groups_index` Boolean masks it builds.
Raises (`Except.error`) when `use_labels_groups` is set without
`labels_groups`, and when `np.unique(labels_groups)` is not exactly
`np.arange(n_groups)`; otherwise stores `n_groups` and one mask
`labels_groups == i` per group (`none` when grouping is off). -/
def schanvaeGroupsCore (l : List ℕ) :
    Except String (Option (ℕ × List (List Bool))) :=
  if npUnique l = List.range (npUnique l).length then
    Except.ok (some ((npUnique l).length,
      (List.range (npUnique l).length).map (fun i => l.map (fun g => g == i))))
  else Except.error "ValueError"

/-- Dispatch of the `__init__` validation on `use_labels_groups` and the
presence of `labels_groups` (source lines 166-176). -/
def schanvaeGroupsInit (use_labels_groups : Bool)
    (labels_groups : Option (List ℕ)) :
    Except String (Option (ℕ × List (List Bool))) :=
  if use_labels_groups then
    match labels_groups with
    | none => Except.error "Specify label groups"
    | some l => schanvaeGroupsCore l
  else Except.ok none

/-- Source `_mudata.py` lines 12-19: `BaseMuDataWrapper.__init__`, which
raises when a modality is required but no `mod_key` is given, and stores
`mod_key` otherwise. -/
def baseMuDataWrapperInit (mod_key : Option String) (mod_required : Bool) :
    Except String (Option String) :=
  if mod_required ∧ mod_key = none then
    Except.error "Modality required for MuDataField but not provided."
  else Except.ok mod_key

/-- Source `_mudata.py` lines 84-88: `MuDataWrapper` rejects an argument
that is an instance rather than a class.  The Python
`isinstance(adata_field_cls, type)` test is modelled by the Boolean
`is_class` of the argument. -/
def muDataWrapperInit (is_class : Bool) : Except String Unit :=
  if is_class then Except.ok ()
  else Except.error "adata_field_cls must be a class, not an instance."

/-- C5: invalid configuration raises at construction: missing
`labels_groups` under `use_labels_groups`; group identifiers that are not
exactly `0..n_groups-1`; a required modality without `mod_key`; an
instance passed where `MuDataWrapper` needs a class — and the
corresponding valid configurations construct successfully. -/
theorem C5_construction_validation :
    schanvaeGroupsInit true none = Except.error "Specify label groups"
    ∧ (∀ l : List ℕ,
        (∃ r, schanvaeGroupsInit true (some l) = Except.ok r) ↔
          npUnique l = List.range (npUnique l).length)
    ∧ baseMuDataWrapperInit none true =
        Except.error "Modality required for MuDataField but not provided."
    ∧ (∀ mk : Option String, baseMuDataWrapperInit mk false = Except.ok mk)
    ∧ muDataWrapperInit false =
        Except.error "adata_field_cls must be a class, not an instance."
    ∧ muDataWrapperInit true = Except.ok () := by
  refine ⟨rfl, fun l => ?_, by simp [baseMuDataWrapperInit],
    fun mk => by simp [baseMuDataWrapperInit], rfl, rfl⟩
  show (∃ r, schanvaeGroupsCore l = Except.ok r) ↔ _
  constructor
  · rintro ⟨r, hr⟩
    by_contra hne
    unfold schanvaeGroupsCore at hr
    rw [if_neg hne] at hr
    cases hr
  · intro h
    exact ⟨_, by unfold schanvaeGroupsCore; rw [if_pos h]⟩

lemma getD_map_range {β : Type} (f : ℕ → β) (len i : ℕ) (hd : β)
    (hi : i < len) : ((List.range len).map f).getD i hd = f i := by
  rw [List.getD_eq_getElem _ _ (by simpa using hi)]
  simp

lemma getD_map_list {α β : Type} (f : α → β) (l : List α) (j : ℕ) (hd : β)
    (hj : j < l.length) : (l.map f).getD j hd = f (l.get ⟨j, hj⟩) := by
  rw [List.getD_eq_getElem _ _ (by simpa using hj)]
  simp

/-- C7: whenever the constructor validation of `labels_groups` succeeds,
the Boolean masks stored in `groups_index` partition the label index set:
there is one mask per group `0..n_groups-1`, and every label position
belongs to the mask of exactly one group. -/
theorem C7_groups_index_partition (l : List ℕ) (n : ℕ)
    (masks : List (List Bool))
    (h : schanvaeGroupsInit true (some l) = Except.ok (some (n, masks))) :
    masks.length = n
    ∧ ∀ j, j < l.length →
        ∃! i : ℕ, i < n ∧ (masks.getD i []).getD j false = true := by
  have hcore : schanvaeGroupsCore l = Except.ok (some (n, masks)) := h
  by_cases hc : npUnique l = List.range (npUnique l).length
  · unfold schanvaeGroupsCore at hcore
    rw [if_pos hc] at hcore
    simp only [Except.ok.injEq, Option.some.injEq, Prod.mk.injEq] at hcore
    obtain ⟨hn, hm⟩ := hcore
    subst hn
    subst hm
    refine ⟨by simp, fun j hj => ?_⟩
    have hgl : l.get ⟨j, hj⟩ ∈ l := List.get_mem l j hj
    have hgu : l.get ⟨j, hj⟩ ∈ npUnique l := mem_npUnique.mpr hgl
    have hglt : l.get ⟨j, hj⟩ < (npUnique l).length := by
      rw [hc] at hgu
      exact List.mem_range.mp hgu
    refine ⟨l.get ⟨j, hj⟩, ⟨⟨hglt, ?_⟩, fun i hi => ?_⟩⟩
    · rw [getD_map_range _ _ _ _ hglt, getD_map_list _ _ _ _ hj]
      simp
    · obtain ⟨hilt, hival⟩ := hi
      rw [getD_map_range _ _ _ _ hilt, getD_map_list _ _ _ _ hj] at hival
      exact ((Nat.beq_eq_true_eq _ _).mp hival).symm
  · unfold schanvaeGroupsCore at hcore
    rw [if_neg hc] at hcore
    cases hcore

/-- Witness for C7 on the concrete group array `[0, 1, 0]`. -/
theorem C7_groups_index_partition_witness :
    ([[true, false, true], [false, true, false]] : List (List Bool)).length = 2
    ∧ (∃! i : ℕ, i < 2 ∧
        (([[true, false, true], [false, true, false]] : List (List Bool)).getD
          i []).getD 0 false = true) := by
  have h := C7_groups_index_partition [0, 1, 0] 2
    [[true, false, true], [false, true, false]] rfl
  exact ⟨h.1, h.2 0 (by decide)⟩

/-- The slice of `SCHANVAE` state read by `classify` (source lines
194-225): `n` = `n_input`, `d` = `n_latent`, `L` = `n_labels`,
`G` = `n_groups`.  `log1p` is `torch.log(1 + x)` entrywise (numerical
black box), `z_encoder_mean` the `qz_m` head of `z_encoder`,
`classifier` the `unw_y` row map, `classifier_groups` the `w_g` row map,
and `labels_groups` the validated group of each label (C7 shows the
masks partition the labels, so it is a total map). -/
structure SCHANVAEClassify (n d L G : ℕ) where
  log_variational : Bool
  log1p : ℚ → ℚ
  z_encoder_mean : (Fin n → ℚ) → Fin d → ℚ
  use_labels_groups : Bool
  classifier : (Fin d → ℚ) → Fin L → ℚ
  classifier_groups : (Fin d → ℚ) → Fin G → ℚ
  labels_groups : Fin L → Fin G

/-- The `1e-8` stabilizer of source line 220. -/
def epsGroup : ℚ := 1 / 100000000

/-- The member labels of group `g` (the support of the `groups_index`
mask `labels_groups == g`). -/
def groupSet {n d L G : ℕ} (M : SCHANVAEClassify n d L G) (g : Fin G) :
    Finset (Fin L) :=
  Finset.univ.filter (fun c => M.labels_groups c = g)

/-- The latent code used for classification: `z = qz_m` from the
`z_encoder` applied to the (optionally `log(1+x)`-transformed) input
(source lines 196-212). -/
def classifyZ {n d L G : ℕ} (M : SCHANVAEClassify n d L G)
    (x : Fin n → ℚ) : Fin d → ℚ :=
  M.z_encoder_mean (if M.log_variational then (fun i => M.log1p (x i)) else x)

/-- Source lines 213-225 of `classify`: with `use_labels_groups`, entry
`c` is the intra-group normalized classifier output
`unw_y[c] / (sum of unw_y over the group of c + 1e-8)` scaled by the
group classifier weight `w_g` of that group; without grouping, the raw
classifier output. -/
def SCHANVAEClassify.classify {n d L G : ℕ} (M : SCHANVAEClassify n d L G)
    (x : Fin n → ℚ) : Fin L → ℚ :=
  if M.use_labels_groups then
    fun c =>
      M.classifier (classifyZ M x) c
          / ((∑ c2 ∈ groupSet M (M.labels_groups c),
              M.classifier (classifyZ M x) c2) + epsGroup)
        * M.classifier_groups (classifyZ M x) (M.labels_groups c)
  else M.classifier (classifyZ M x)

/-- Concrete classify model for C6: two labels in two singleton groups,
raw classifier outputs `1`, group weights `1/2`. -/
def modelC6 : SCHANVAEClassify 1 1 2 2 where
  log_variational := false
  log1p := fun q => q
  z_encoder_mean := fun _ _ => 0
  use_labels_groups := true
  classifier := fun _ _ => 1
  classifier_groups := fun _ _ => 1 / 2
  labels_groups := fun c => c

/-- C6 counterexample: with grouping enabled, the classify outputs over
the members of group `0` sum to roughly the group weight `1/2`, not to
`1` up to the stated `1e-8`. -/
theorem C6_counterexample :
    modelC6.use_labels_groups = true
    ∧ ¬ (|(∑ c ∈ groupSet modelC6 0,
          SCHANVAEClassify.classify modelC6 (fun _ => 0) c) - 1| ≤ epsGroup) := by
  refine ⟨rfl, ?_⟩
  have hS : (∑ c ∈ groupSet modelC6 0,
      SCHANVAEClassify.classify modelC6 (fun _ => 0) c) =
      50000000 / 100000001 := by
    simp only [SCHANVAEClassify.classify, groupSet, classifyZ, modelC6,
      Finset.sum_filter]
    norm_num [Fin.sum_univ_two, epsGroup]
  rw [hS, not_le, lt_abs]
  right
  norm_num [epsGroup]

/-- C6 (amended): with grouping enabled, the classify outputs over the
members of any group `g` sum to `s / (s + 1e-8)` times the group
classifier weight of `g` (where `s` is the group sum of the raw
classifier outputs) — the group weight damped by the stabilizer, not `1`. -/
theorem C6_group_sum_amended {n d L G : ℕ} (M : SCHANVAEClassify n d L G)
    (x : Fin n → ℚ) (g : Fin G) (huse : M.use_labels_groups = true) :
    (∑ c ∈ groupSet M g, SCHANVAEClassify.classify M x c) =
      (∑ c ∈ groupSet M g, M.classifier (classifyZ M x) c)
          / ((∑ c ∈ groupSet M g, M.classifier (classifyZ M x) c) + epsGroup)
        * M.classifier_groups (classifyZ M x) g := by
  simp only [SCHANVAEClassify.classify, huse, if_true]
  calc (∑ c ∈ groupSet M g,
        M.classifier (classifyZ M x) c
            / ((∑ c2 ∈ groupSet M (M.labels_groups c),
                M.classifier (classifyZ M x) c2) + epsGroup)
          * M.classifier_groups (classifyZ M x) (M.labels_groups c))
      = ∑ c ∈ groupSet M g,
          M.classifier (classifyZ M x) c
              * M.classifier_groups (classifyZ M x) g
            / ((∑ c2 ∈ groupSet M g,
                M.classifier (classifyZ M x) c2) + epsGroup) := by
        refine Finset.sum_congr rfl fun c hc => ?_
        rw [(Finset.mem_filter.mp hc).2, div_mul_eq_mul_div]
    _ = (∑ c ∈ groupSet M g,
          M.classifier (classifyZ M x) c
            * M.classifier_groups (classifyZ M x) g)
          / ((∑ c2 ∈ groupSet M g,
              M.classifier (classifyZ M x) c2) + epsGroup) := by
        rw [Finset.sum_div]
    _ = _ := by
        rw [← Finset.sum_mul, div_mul_eq_mul_div]

/-- Witness for the amended C6 at the concrete grouped model. -/
theorem C6_group_sum_amended_witness :
    (∑ c ∈ groupSet modelC6 0,
        SCHANVAEClassify.classify modelC6 (fun _ => 0) c) =
      (∑ c ∈ groupSet modelC6 0,
          modelC6.classifier (classifyZ modelC6 (fun _ => 0)) c)
          / ((∑ c ∈ groupSet modelC6 0,
              modelC6.classifier (classifyZ modelC6 (fun _ => 0)) c) + epsGroup)
        * modelC6.classifier_groups (classifyZ modelC6 (fun _ => 0)) 0 :=
  C6_group_sum_amended modelC6 (fun _ => 0) 0 rfl

/-- Source `semi_supervised_trainer.py` lines 146-168: the per-epoch
selection of the wake-phi objective and its reparameterization flag.
`int(n_epochs / 3)` truncates the nonnegative quotient, i.e. natural
division. -/
def wakePsiEpoch (wake_psi : String) (reparam_wphi : Bool)
    (n_epochs epoch : ℕ) : String × Bool :=
  if wake_psi = "REVKL+CUBO" then
    if epoch ≤ n_epochs / 3 then ("REVKL", false) else ("CUBO", true)
  else if wake_psi = "ELBO+CUBO" then
    if epoch ≤ n_epochs / 3 then ("ELBO", true) else ("CUBO", true)
  else if wake_psi = "ELBO+REVKL" then
    if epoch ≤ n_epochs / 3 then ("ELBO", true) else ("REVKL", false)
  else (wake_psi, reparam_wphi)

/-- C8: the combined `wake_psi` schedules switch exactly after epoch
`floor(n_epochs / 3)`: `REVKL+CUBO` uses `REVKL` without
reparameterization up to that epoch and `CUBO` with reparameterization
after; `ELBO+CUBO` switches `ELBO` to `CUBO` with reparameterization
always on; `ELBO+REVKL` switches `ELBO` (reparam on) to `REVKL` (reparam
off); any other `wake_psi` value is used unchanged with `reparam_wphi`
every epoch. -/
theorem C8_wake_psi_schedule (rw : Bool) (n e : ℕ) :
    (e ≤ n / 3 → wakePsiEpoch "REVKL+CUBO" rw n e = ("REVKL", false))
    ∧ (n / 3 < e → wakePsiEpoch "REVKL+CUBO" rw n e = ("CUBO", true))
    ∧ (e ≤ n / 3 → wakePsiEpoch "ELBO+CUBO" rw n e = ("ELBO", true))
    ∧ (n / 3 < e → wakePsiEpoch "ELBO+CUBO" rw n e = ("CUBO", true))
    ∧ (e ≤ n / 3 → wakePsiEpoch "ELBO+REVKL" rw n e = ("ELBO", true))
    ∧ (n / 3 < e → wakePsiEpoch "ELBO+REVKL" rw n e = ("REVKL", false))
    ∧ (∀ ws : String, ws ≠ "REVKL+CUBO" → ws ≠ "ELBO+CUBO" →
        ws ≠ "ELBO+REVKL" → wakePsiEpoch ws rw n e = (ws, rw)) := by
  refine ⟨fun h => ?_, fun h => ?_, fun h => ?_, fun h => ?_, fun h => ?_,
    fun h => ?_, fun ws h1 h2 h3 => ?_⟩
  · simp [wakePsiEpoch, h]
  · simp [wakePsiEpoch, Nat.not_le.mpr h]
  · simp [wakePsiEpoch, h]
  · simp [wakePsiEpoch, Nat.not_le.mpr h]
  · simp [wakePsiEpoch, h]
  · simp [wakePsiEpoch, Nat.not_le.mpr h]
  · simp [wakePsiEpoch, h1, h2, h3]

/-- Witness for C8 around the switch point of a nine-epoch run. -/
theorem C8_wake_psi_schedule_witness :
    wakePsiEpoch "REVKL+CUBO" true 9 3 = ("REVKL", false)
    ∧ wakePsiEpoch "REVKL+CUBO" true 9 4 = ("CUBO", true)
    ∧ wakePsiEpoch "ELBO+CUBO" false 9 3 = ("ELBO", true)
    ∧ wakePsiEpoch "ELBO+CUBO" false 9 4 = ("CUBO", true)
    ∧ wakePsiEpoch "ELBO+REVKL" false 9 3 = ("ELBO", true)
    ∧ wakePsiEpoch "ELBO+REVKL" false 9 4 = ("REVKL", false)
    ∧ wakePsiEpoch "CUBO" false 9 7 = ("CUBO", false) :=
  ⟨(C8_wake_psi_schedule true 9 3).1 (by decide),
    (C8_wake_psi_schedule true 9 4).2.1 (by decide),
    (C8_wake_psi_schedule false 9 3).2.2.1 (by decide),
    (C8_wake_psi_schedule false 9 4).2.2.2.1 (by decide),
    (C8_wake_psi_schedule false 9 3).2.2.2.2.1 (by decide),
    (C8_wake_psi_schedule false 9 4).2.2.2.2.2.1 (by decide),
    (C8_wake_psi_schedule false 9 7).2.2.2.2.2.2 "CUBO"
      (by decide) (by decide) (by decide)⟩

/-- Mode bookkeeping of the `MnistTrainer` loop: `training = true` is
torch training mode (the state a freshly constructed `nn.Module` is in),
`iterate` the trainer's iteration counter. -/
structure TrainerModeState where
  iterate : ℕ
  training : Bool

/-- Source lines 242-245: `inference` sets `self.model.eval()` when
`eval_mode` (else `self.model.train()`), and nothing afterwards changes
the mode again before it returns. -/
def inferenceMode (eval_mode : Bool) : Bool :=
  if eval_mode then false else true

/-- Source lines 227-233: `MnistTrainer.loss` calls
`self.inference(self.train_loader, keys=["CUBO"], n_samples=10)` — with
the default `eval_mode=True` — whenever `iterate % 100 == 0`, leaving the
model in the mode `inference` set; otherwise the mode is untouched. -/
def lossMode (s : TrainerModeState) : Bool :=
  if s.iterate % 100 = 0 then inferenceMode true else s.training

/-- One iteration of the monobjective branch of `MnistTrainer.train`
(source lines 113-128, 184): compute `loss` (whose metric hook may flip
the mode), then `zero_grad`/`backward`/`optim.step()` — executed in
whatever mode the model is now in, since `train()` is never called — then
`self.iterate += 1`.  Returns the successor state and the mode the model
was in during the optimizer step. -/
def trainerIteration (s : TrainerModeState) : TrainerModeState × Bool :=
  (⟨s.iterate + 1, lossMode s⟩, lossMode s)

/-- C9 is violated by the code: starting from a freshly constructed model
(training mode, `iterate = 0`), the very first `loss` call triggers the
periodic `inference` (since `0 % 100 == 0`), which switches to eval mode,
and no `train()` call restores training mode before the optimizer step of
that same iteration — the step runs in eval mode, and the model is still
in eval mode entering the next iteration. -/
theorem C9_training_mode_not_restored :
    (trainerIteration ⟨0, true⟩).2 = false
    ∧ (trainerIteration ⟨0, true⟩).1.training = false
    ∧ (trainerIteration (trainerIteration ⟨0, true⟩).1).2 = false := by
  exact ⟨rfl, rfl, rfl⟩

/-- Source lines 71-76 of `MnistTrainer.train`:
`assert (n_samples_phi is None) == (n_samples_theta is None)`, then
`if n_samples is not None: n_samples_theta = n_samples;
n_samples_phi = n_samples`.  Returns the effective
`(n_samples_theta, n_samples_phi)` pair, with the failed assertion as an
error. -/
def resolveNSamples (n_samples n_samples_phi n_samples_theta : Option ℕ) :
    Except String (Option ℕ × Option ℕ) :=
  if (n_samples_phi = none) = (n_samples_theta = none) then
    match n_samples with
    | some s => Except.ok (some s, some s)
    | none => Except.ok (n_samples_theta, n_samples_phi)
  else Except.error "AssertionError"

/-- C10: when `n_samples` is not `None` (and the both-or-neither
assertion on `n_samples_phi`/`n_samples_theta` passes), both effective
sample counts are overwritten with `n_samples`, whatever the caller
passed; the caller values survive only when `n_samples` is explicitly
`None`; and the assertion rejects exactly the mixed `None`/value
configurations. -/
theorem C10_n_samples_override (nsp nst : Option ℕ) :
    (∀ s : ℕ, (nsp = none) = (nst = none) →
      resolveNSamples (some s) nsp nst = Except.ok (some s, some s))
    ∧ ((nsp = none) = (nst = none) →
      resolveNSamples none nsp nst = Except.ok (nst, nsp))
    ∧ (¬ ((nsp = none) = (nst = none)) →
      ∀ ns : Option ℕ, resolveNSamples ns nsp nst =
        Except.error "AssertionError") := by
  refine ⟨fun s h => ?_, fun h => ?_, fun h ns => ?_⟩
  · simp [resolveNSamples, h]
  · simp [resolveNSamples, h]
  · simp [resolveNSamples, h]

/-- Witness for C10: caller-passed counts `7`/`7` are ignored in favour
of `n_samples = 1` (the default), kept when `n_samples` is `None`, and a
mixed configuration trips the assertion. -/
theorem C10_n_samples_override_witness :
    resolveNSamples (some 1) (some 7) (some 7) = Except.ok (some 1, some 1)
    ∧ resolveNSamples none (some 7) (some 7) = Except.ok (some 7, some 7)
    ∧ resolveNSamples (some 1) (some 7) none = Except.error "AssertionError" :=
  ⟨(C10_n_samples_override (some 7) (some 7)).1 1 (by decide),
    (C10_n_samples_override (some 7) (some 7)).2.1 (by decide),
    (C10_n_samples_override (some 7) none).2.2 (by decide) (some 1)⟩
